import Mathlib

/-!
Verification of `scrapingytcommet.py`, a Selenium-based YouTube comment
scraper.  The browser DOM is shallowly embedded: a DOM scope is a list of
nodes in document order, each node carrying the set of CSS selectors it
matches together with its visible text.  Pure string manipulation
(`extract_video_id` and the small slice of `urllib.parse` it calls) is
translated directly on top of executable character-list primitives that
mirror the Python string operations; the comment-collection loop of
`scrape_comments` is embedded as a fuel-indexed state-transition function
whose per-iteration DOM query result is a parameter
`env : Nat -> List CommentElement` (the element list returned by
`find_elements` at iteration k of the loop).
-/

/- ### String primitives

Executable models of the Python string operations used by the scraper.
They work on the character list underlying a `String` so that every
definition reduces inside the kernel. -/

/-- Python `s.split(c)` for a one-character separator: all parts, empty
parts kept, so that `"".split(c) = [""]`. -/
def splitOnChar (c : Char) : List Char → List (List Char)
  | [] => [[]]
  | x :: xs =>
    let r := splitOnChar c xs
    if x == c then [] :: r
    else
      match r with
      | [] => [[x]]
      | h :: t => (x :: h) :: t

/-- Substring occurrence, Python `pat in s` (for the non-empty literal
patterns used by the scraper). -/
def occursIn (pat : List Char) : List Char → Bool
  | [] => pat.isEmpty
  | x :: xs => pat.isPrefixOf (x :: xs) || occursIn pat xs

/-- Python `pat in s` on strings. -/
def pyContains (s pat : String) : Bool :=
  occursIn pat.data s.data

/-- Everything after the first occurrence of `c`, empty if `c` is absent:
the tail component of Python `s.partition(c)`. -/
def afterChar (c : Char) : List Char → List Char
  | [] => []
  | x :: xs => if x == c then xs else afterChar c xs

/-- Python `s.strip()`: leading and trailing whitespace removed. -/
def pyStrip (s : String) : String :=
  String.mk (((s.data.dropWhile Char.isWhitespace).reverse.dropWhile
    Char.isWhitespace).reverse)

/-- Python `x or y` on strings: the empty string is falsy. -/
def pyOrStr (x y : String) : String :=
  if x = "" then y else x

/- ### DOM model and field extraction -/

/-- A DOM node as seen through the Selenium query interface:
`selectors` is the set of CSS selectors the node matches and `text` is its
visible text (the `.text` attribute of the web element). -/
structure DomNode where
  selectors : List String
  text : String
deriving DecidableEq

/-- A `ytd-comment-thread-renderer` element, represented by the list of its
descendant nodes that child queries can reach. -/
abbrev CommentElement := List DomNode

/-- `scope.find_elements(By.CSS_SELECTOR, selector)`: all nodes in the
scope matching the selector, in document order. -/
def find_elements (scope : List DomNode) (selector : String) : List DomNode :=
  scope.filter (fun nd => nd.selectors.contains selector)

/-- Lines 87-90: `_get_text(self, selector, default="")` returns
`elements[0].text if elements else default` for a whole-page query.
Note the text is returned as-is, without stripping. -/
def _get_text (page : List DomNode) (selector : String) (default : String) : String :=
  match find_elements page selector with
  | [] => default
  | e :: _ => e.text

/-- Lines 205-208: `_get_element_text(self, parent, selector)` returns
`elements[0].text.strip() if elements else ""` for a query scoped to a
parent element. -/
def _get_element_text (parent : List DomNode) (selector : String) : String :=
  match find_elements parent selector with
  | [] => ""
  | e :: _ => pyStrip e.text

/-- The record built by `_extract_comment` (lines 197-202). -/
structure CommentRecord where
  author : String
  text : String
  likes : String
  timestamp : String
deriving DecidableEq

/-- Lines 188-203: `_extract_comment` extracts the four fields of a comment
element and materializes a record only when both `author` and `text` are
truthy (non-empty). -/
def _extract_comment (comment_element : CommentElement) : Option CommentRecord :=
  let author := _get_element_text comment_element "#author-text"
  let text := _get_element_text comment_element "#content-text"
  let likes := pyOrStr (_get_element_text comment_element "#vote-count-middle") "0"
  let timestamp := pyOrStr (_get_element_text comment_element ".published-time-text") "Unknown"
  if author != "" && text != "" then
    some { author := author, text := text, likes := likes, timestamp := timestamp }
  else
    none

/- ### extract_video_id (lines 39-50) -/

/-- Character class `[A-Za-z0-9_-]` of the video-id regex (line 48). -/
def isIdChar (c : Char) : Bool :=
  c.isAlphanum || c == '_' || c == '-'

/-- `re.match(r"^[A-Za-z0-9_-]{11}$", url)`: eleven characters of the
class, where the `$` anchor of Python regular expressions also matches
just before a single trailing newline. -/
def matchesIdPattern (s : String) : Bool :=
  (s.data.length == 11 && s.data.all isIdChar) ||
  (s.data.length == 12 && s.data.getLast? == some '\n' && (s.data.take 11).all isIdChar)

/-- `url.split('/')[-1].split('?')[0]` (lines 42 and 47): last path
segment with any trailing query string stripped. -/
def lastSegmentNoQuery (url : String) : String :=
  String.mk (((splitOnChar '/' url.data).getLastD []).takeWhile (fun c => c != '?'))

/-- The `query` component of `urllib.parse.urlparse`: everything after the
first `?` of the string once a fragment introduced by the first `#` has
been removed. -/
def urlQuery (url : String) : List Char :=
  afterChar '?' (url.data.takeWhile (fun c => c != '#'))

/-- `parse_qs(query).get('v', [None])[0]` (line 45): the value of the first
`&`-field of the query whose name is `v`, the value being the part after
the first `=` of the field; fields with an empty value are dropped by
`parse_qs` (default `keep_blank_values=False`).  The percent/plus decoding
performed by `urllib.parse.unquote_plus` is not modelled; no input
considered here contains `%` or `+`. -/
def parse_qs_get_v (query : List Char) : Option String :=
  (splitOnChar '&' query).findSome? fun field =>
    let name := field.takeWhile (fun ch => ch != '=')
    let value := afterChar '=' field
    if name == ['v'] && !value.isEmpty then some (String.mk value) else none

/-- Lines 39-50: `extract_video_id` checks four URL shapes in order:
a `youtu.be` short link, a `youtube.com/watch` link with query parameter
`v`, a `youtube.com/shorts` or `youtube.com/embed` link, and finally a
bare 11-character id. -/
def extract_video_id (url : String) : Option String :=
  if pyContains url "youtu.be" then
    some (lastSegmentNoQuery url)
  else if pyContains url "youtube.com/watch" then
    parse_qs_get_v (urlQuery url)
  else if pyContains url "youtube.com/shorts" || pyContains url "youtube.com/embed" then
    some (lastSegmentNoQuery url)
  else if matchesIdPattern url then
    some url
  else
    none

/- ### get_video_info (lines 52-85) -/

/-- The record built by `get_video_info` (lines 74-82); every field other
than the id and the canonical URL is a best-effort `_get_text` lookup with
a sentinel default. -/
structure VideoInfo where
  video_id : String
  title : String
  channel : String
  views : String
  upload_date : String
  likes : String
  url : String
deriving DecidableEq

/-- Lines 52-85: `get_video_info` aborts with `None` when the guard
`if not video_id:` of line 55 fires; Python falsiness makes it fire both
when `extract_video_id` returns `None` and when it returns the empty
string (which the short-link and shorts/embed branches can produce for a
URL whose last path segment is empty).  Otherwise it navigates to the
canonical watch URL and fills the record from page lookups (the loaded
page is the `page` parameter). -/
def get_video_info (video_url : String) (page : List DomNode) : Option VideoInfo :=
  match extract_video_id video_url with
  | none => none
  | some video_id =>
    if video_id = "" then none
    else
    let url := "https://www.youtube.com/watch?v=" ++ video_id
    some
      { video_id := video_id
        title := _get_text page "h1 yt-formatted-string" "Unknown Title"
        channel := _get_text page "ytd-channel-name a, #channel-name a" "Unknown Channel"
        views := _get_text page "span.view-count" "Unknown Views"
        upload_date := _get_text page "#info-strings yt-formatted-string" "Unknown Date"
        likes := _get_text page "ytd-toggle-button-renderer yt-formatted-string" "Unknown Likes"
        url := url }

/- ### The comment-collection loop (lines 108-160) -/

/-- The mutable collection variables of `scrape_comments` (lines 109-112). -/
structure ScrapeState where
  comments : List CommentRecord
  last_comment_count : Nat
  consecutive_unchanged : Nat
  scroll_count : Nat
deriving DecidableEq

/-- Python truthiness of the optional `max_comments` argument: both `None`
and `0` are falsy. -/
def mcTruthy : Option Nat → Bool
  | none => false
  | some m => m != 0

/-- The break condition `max_comments and len(comments) >= max_comments`
(lines 140 and 148), for a current collection length `n`. -/
def capReached (mc : Option Nat) (n : Nat) : Bool :=
  mcTruthy mc && decide (mc.getD 0 ≤ n)

/-- `start_index = len(comments)` (line 130). -/
def window_start (s : ScrapeState) : Nat :=
  s.comments.length

/-- `end_index = min(len(comment_elements), len(comments) + 10,
(max_comments or float('inf')))` (lines 131-133), for `numElems` elements
found: the Python `or` makes a falsy cap behave as infinity, modelled by
omitting that operand from the minimum. -/
def window_end (mc : Option Nat) (numElems : Nat) (s : ScrapeState) : Nat :=
  let base := min numElems (s.comments.length + 10)
  if mcTruthy mc then min base (mc.getD 0) else base

/-- The inner `for i in range(start_index, end_index)` (lines 135-141) over
the slice `comment_elements[start_index:end_index]`: append each valid
record and break as soon as the cap is met. -/
def collectFrom (mc : Option Nat) : List CommentElement → List CommentRecord → List CommentRecord
  | [], comments => comments
  | e :: rest, comments =>
    match _extract_comment e with
    | some r =>
      let comments2 := comments ++ [r]
      if capReached mc comments2.length then comments2
      else collectFrom mc rest comments2
    | none => collectFrom mc rest comments

/-- One iteration of the `while` body (lines 118-155) on the element list
returned by the DOM query: update the stall counter against
`last_comment_count`, extract the window of new elements, and either break
out of the loop (second component `true`, lines 147-150; the scroll of
lines 152-155 is skipped) or scroll and continue. -/
def stepIter (mc : Option Nat) (comment_elements : List CommentElement) (s : ScrapeState) :
    ScrapeState × Bool :=
  let n := comment_elements.length
  let comments2 :=
    collectFrom mc ((comment_elements.take (window_end mc n s)).drop (window_start s)) s.comments
  let broke := capReached mc comments2.length
  ({ comments := comments2
     last_comment_count := if s.last_comment_count < n then n else s.last_comment_count
     consecutive_unchanged := if s.last_comment_count < n then 0 else s.consecutive_unchanged + 1
     scroll_count := if broke then s.scroll_count else s.scroll_count + 1 },
   broke)

/-- The `while` condition (line 117):
`(not max_comments or len(comments) < max_comments) and scroll_count < 30
and consecutive_unchanged < 3`. -/
def loopGuard (mc : Option Nat) (s : ScrapeState) : Bool :=
  (!mcTruthy mc || decide (s.comments.length < mc.getD 0)) &&
    decide (s.scroll_count < 30) && decide (s.consecutive_unchanged < 3)

/-- The scraping loop as a fuel-indexed recursion; `k` counts the
iterations performed so far and indexes the DOM query `env`.  The guard
keeps `scroll_count < 30` and every non-breaking iteration increments it,
so the loop runs at most 31 iterations and any fuel of at least 32 is
never exhausted. -/
def runLoop (mc : Option Nat) (env : Nat → List CommentElement) :
    Nat → Nat → ScrapeState → ScrapeState
  | 0, _, s => s
  | fuel + 1, k, s =>
    if loopGuard mc s then
      let p := stepIter mc (env k) s
      if p.2 then p.1 else runLoop mc env fuel (k + 1) p.1
    else s

/-- The initial collection state of lines 109-112. -/
def initialState : ScrapeState :=
  { comments := [], last_comment_count := 0, consecutive_unchanged := 0, scroll_count := 0 }

/-- The whole collection loop of `scrape_comments`, started from the
initial state of lines 109-112. -/
def scrapeLoop (mc : Option Nat) (env : Nat → List CommentElement) : ScrapeState :=
  runLoop mc env 40 0 initialState

/-- `comments[:max_comments] if max_comments else comments` (line 160). -/
def truncateToCap (mc : Option Nat) (comments : List CommentRecord) : List CommentRecord :=
  if mcTruthy mc then comments.take (mc.getD 0) else comments

/-- `min(len(comments), max_comments if max_comments else len(comments))`
(line 162). -/
def metadataCount (mc : Option Nat) (comments : List CommentRecord) : Nat :=
  min comments.length (if mcTruthy mc then mc.getD 0 else comments.length)

/-- The result dictionary of `scrape_comments` (lines 158-166); the
scrape timestamp is a runtime input passed as `scrape_date`. -/
structure ScrapeResult where
  video_info : VideoInfo
  comments : List CommentRecord
  total_comments_collected : Nat
  sort_order : String
  scrape_date : String
deriving DecidableEq

/-- Lines 92-169: `scrape_comments` returns `None` exactly when
`get_video_info` does (lines 95-97); otherwise it runs the collection
loop and packages the result. -/
def scrape_comments (video_url : String) (page : List DomNode)
    (env : Nat → List CommentElement) (max_comments : Option Nat)
    (sort_by : String) (scrape_date : String) : Option ScrapeResult :=
  match get_video_info video_url page with
  | none => none
  | some video_info =>
    let comments := (scrapeLoop max_comments env).comments
    some
      { video_info := video_info
        comments := truncateToCap max_comments comments
        total_comments_collected := metadataCount max_comments comments
        sort_order := sort_by
        scrape_date := scrape_date }

/-- Lines 255-267 of `main`: files are written only inside
`if data:` (a result dictionary is always truthy), the JSON file for
formats `json` and `both`, and the CSV file for formats `csv` and `both`
subject to the guard of `save_to_csv` (line 218) that the comment list is
non-empty. -/
def outputFiles (data : Option ScrapeResult) (output_format : String)
    (base_filename : String) : List String :=
  match data with
  | none => []
  | some d =>
    (if output_format = "json" || output_format = "both" then
      [base_filename ++ ".json"] else []) ++
    (if output_format = "csv" || output_format = "both" then
      (if d.comments.isEmpty then [] else [base_filename ++ ".csv"]) else [])

/- ### Sample DOM data used by concrete runs -/

/-- A comment element with visible author and text: `_extract_comment`
yields a record from it. -/
def sampleValid : CommentElement :=
  [{ selectors := ["#author-text"], text := "a" },
   { selectors := ["#content-text"], text := "b" }]

/-- A comment element with no visible author or text: `_extract_comment`
yields no record from it. -/
def sampleInvalid : CommentElement := []

/- ### General lemmas about the collection loop -/

/-- Extracting the two facts of a fired cap check. -/
lemma capReached_true {mc : Option Nat} {n : Nat} (h : capReached mc n = true) :
    mcTruthy mc = true ∧ mc.getD 0 ≤ n := by
  simpa [capReached, Bool.and_eq_true, decide_eq_true_eq] using h

/-- A cap check that did not fire while the cap is truthy: the cap is
still strictly ahead. -/
lemma capReached_false {m n : Nat} (hm : m ≠ 0) (h : capReached (some m) n = false) :
    n < m := by
  simp only [capReached, mcTruthy, Option.getD_some, Bool.and_eq_false_iff,
    bne_eq_false_iff_eq, decide_eq_false_iff_not, not_le] at h
  rcases h with h | h
  · exact absurd h hm
  · exact h

/-- The inner extraction loop appends at most one record per slice
element. -/
lemma collectFrom_length_le (mc : Option Nat) (slice : List CommentElement)
    (cs : List CommentRecord) :
    (collectFrom mc slice cs).length ≤ cs.length + slice.length := by
  induction slice generalizing cs with
  | nil => simp [collectFrom]
  | cons e rest ih =>
    rcases h : _extract_comment e with _ | r
    · simp only [collectFrom, h]
      have := ih cs
      simp only [List.length_cons, List.length_nil] at this ⊢
      omega
    · simp only [collectFrom, h]
      split
      · simp only [List.length_append, List.length_cons, List.length_nil]
        omega
      · have := ih (cs ++ [r])
        simp only [List.length_append, List.length_cons, List.length_nil] at this ⊢
        omega

/-- When every element of the slice yields a valid record and the cap `m`
cannot be hit strictly inside the slice, the inner loop appends exactly
one record per element. -/
lemma collectFrom_valid_length (m : Nat) (slice : List CommentElement)
    (cs : List CommentRecord)
    (hv : ∀ e ∈ slice, (_extract_comment e).isSome = true)
    (hle : cs.length + slice.length ≤ m) :
    (collectFrom (some m) slice cs).length = cs.length + slice.length := by
  induction slice generalizing cs with
  | nil => simp [collectFrom]
  | cons e rest ih =>
    have he : (_extract_comment e).isSome = true := hv e (List.mem_cons_self e rest)
    obtain ⟨r, hr⟩ := Option.isSome_iff_exists.mp he
    simp only [collectFrom, hr]
    split
    · next hcap =>
      have h2 := (capReached_true hcap).2
      simp only [Option.getD_some, List.length_append, List.length_cons, List.length_nil] at h2
      simp only [List.length_append, List.length_cons, List.length_nil] at hle ⊢
      omega
    · rw [ih (cs ++ [r]) (fun e2 he2 => hv e2 (List.mem_cons_of_mem _ he2))
        (by simp only [List.length_append, List.length_cons, List.length_nil] at hle ⊢; omega)]
      simp only [List.length_append, List.length_cons, List.length_nil]
      omega

/-- Starting strictly below the cap, the inner loop never collects past
the cap: the break of line 141 fires as soon as the cap is met. -/
lemma collectFrom_le_cap (m : Nat) (slice : List CommentElement)
    (cs : List CommentRecord) (hlt : cs.length < m) :
    (collectFrom (some m) slice cs).length ≤ m := by
  induction slice generalizing cs with
  | nil => simpa [collectFrom] using hlt.le
  | cons e rest ih =>
    rcases h : _extract_comment e with _ | r
    · simp only [collectFrom, h]
      exact ih cs hlt
    · simp only [collectFrom, h]
      split
      · next hcap =>
        have h2 := (capReached_true hcap).2
        simp only [Option.getD_some, List.length_append, List.length_cons, List.length_nil] at h2 ⊢
        omega
      · next hcap =>
        apply ih
        have := capReached_false (by omega : m ≠ 0) (eq_false_of_ne_true hcap)
        simp only [List.length_append, List.length_cons, List.length_nil] at this ⊢
        omega

/-- The loop body never breaks when no cap is set. -/
lemma capReached_none (n : Nat) : capReached none n = false := rfl

lemma stepIter_comments (mc : Option Nat) (elems : List CommentElement) (s : ScrapeState) :
    (stepIter mc elems s).1.comments =
      collectFrom mc ((elems.take (window_end mc elems.length s)).drop (window_start s))
        s.comments := rfl

lemma stepIter_last (mc : Option Nat) (elems : List CommentElement) (s : ScrapeState) :
    (stepIter mc elems s).1.last_comment_count =
      if s.last_comment_count < elems.length then elems.length
      else s.last_comment_count := rfl

lemma stepIter_consec (mc : Option Nat) (elems : List CommentElement) (s : ScrapeState) :
    (stepIter mc elems s).1.consecutive_unchanged =
      if s.last_comment_count < elems.length then 0
      else s.consecutive_unchanged + 1 := rfl

lemma stepIter_broke (mc : Option Nat) (elems : List CommentElement) (s : ScrapeState) :
    (stepIter mc elems s).2 = capReached mc (stepIter mc elems s).1.comments.length := rfl

lemma stepIter_scroll (mc : Option Nat) (elems : List CommentElement) (s : ScrapeState) :
    (stepIter mc elems s).1.scroll_count =
      if (stepIter mc elems s).2 then s.scroll_count else s.scroll_count + 1 := rfl

/-- Definitional unfolding of one loop iteration. -/
lemma runLoop_succ (mc : Option Nat) (env : Nat → List CommentElement)
    (f k : Nat) (s : ScrapeState) :
    runLoop mc env (f + 1) k s =
      if loopGuard mc s then
        (if (stepIter mc (env k) s).2 then (stepIter mc (env k) s).1
         else runLoop mc env f (k + 1) (stepIter mc (env k) s).1)
      else s := rfl

/-- With a positive cap `m`, the collection can never hold more than `m`
records: the guard admits only states strictly below the cap and the inner
break stops extraction at the cap. -/
lemma runLoop_le_cap (m : Nat) (env : Nat → List CommentElement) (hm : 0 < m) :
    ∀ (fuel k : Nat) (s : ScrapeState), s.comments.length ≤ m →
      (runLoop (some m) env fuel k s).comments.length ≤ m := by
  intro fuel
  induction fuel with
  | zero => intro k s h; simpa [runLoop] using h
  | succ f ih =>
    intro k s h
    rw [runLoop_succ]
    by_cases hg : loopGuard (some m) s = true
    · rw [if_pos hg]
      have hlt : s.comments.length < m := by
        simp only [loopGuard, mcTruthy, Option.getD_some, Bool.and_eq_true, Bool.or_eq_true,
          Bool.not_eq_true', bne_eq_false_iff_eq, decide_eq_true_eq] at hg
        rcases hg.1.1 with h0 | h0
        · omega
        · exact h0
      have hstep : (stepIter (some m) (env k) s).1.comments.length ≤ m := by
        rw [stepIter_comments]
        exact collectFrom_le_cap _ _ _ hlt
      split
      · exact hstep
      · exact ih _ _ hstep
    · rw [if_neg hg]
      exact h

/-- Stall phase with no cap: while the DOM query never returns more
elements than `last_comment_count`, every iteration increments the stall
counter and the loop exits exactly when it reaches 3. -/
lemma runLoop_stall (env : Nat → List CommentElement)
    (hmono : ∀ j, (env (j + 1)).length ≤ (env j).length) :
    ∀ (fuel k : Nat) (s : ScrapeState),
      (env k).length ≤ s.last_comment_count →
      s.consecutive_unchanged ≤ 3 →
      s.scroll_count + (3 - s.consecutive_unchanged) ≤ 30 →
      3 - s.consecutive_unchanged < fuel →
      (runLoop none env fuel k s).consecutive_unchanged = 3 ∧
      (runLoop none env fuel k s).scroll_count =
        s.scroll_count + (3 - s.consecutive_unchanged) := by
  intro fuel
  induction fuel with
  | zero => intro k s _ _ _ hf; omega
  | succ f ih =>
    intro k s hk hc3 hs30 hf
    by_cases hc : s.consecutive_unchanged = 3
    · have hgn : ¬loopGuard none s = true := by
        simp [loopGuard, hc]
      rw [runLoop_succ, if_neg hgn]
      exact ⟨hc, by omega⟩
    · have hg : loopGuard none s = true := by
        simp only [loopGuard, mcTruthy, Bool.not_false, Bool.true_or, Bool.true_and,
          Bool.and_eq_true, decide_eq_true_eq]
        omega
      rw [runLoop_succ, if_pos hg]
      have hb : (stepIter none (env k) s).2 = false := by
        rw [stepIter_broke]; exact capReached_none _
      rw [if_neg (by simp [hb])]
      have hnb : ¬s.last_comment_count < (env k).length := by omega
      have hl : (stepIter none (env k) s).1.last_comment_count = s.last_comment_count := by
        rw [stepIter_last, if_neg hnb]
      have hcs : (stepIter none (env k) s).1.consecutive_unchanged =
          s.consecutive_unchanged + 1 := by
        rw [stepIter_consec, if_neg hnb]
      have hsc : (stepIter none (env k) s).1.scroll_count = s.scroll_count + 1 := by
        rw [stepIter_scroll, hb]
        simp
      obtain ⟨h1, h2⟩ := ih (k + 1) (stepIter none (env k) s).1
        (by rw [hl]; exact le_trans (hmono k) hk)
        (by rw [hcs]; omega)
        (by rw [hsc, hcs]; omega)
        (by rw [hcs]; omega)
      refine ⟨h1, ?_⟩
      rw [h2, hsc, hcs]
      omega

/-- Growth phase with no cap: while every DOM query returns strictly more
elements than the last recorded count, the stall counter keeps being
reset, so the loop runs until `scroll_count` reaches the hard ceiling of
30 iterations. -/
lemma runLoop_grow (env : Nat → List CommentElement)
    (hmono : ∀ j, (env j).length < (env (j + 1)).length) :
    ∀ (fuel k : Nat) (s : ScrapeState),
      s.last_comment_count < (env k).length →
      s.consecutive_unchanged < 3 →
      s.scroll_count ≤ 30 →
      30 - s.scroll_count < fuel →
      (runLoop none env fuel k s).scroll_count = 30 := by
  intro fuel
  induction fuel with
  | zero => intro k s _ _ _ hf; omega
  | succ f ih =>
    intro k s hlast hc hs30 hf
    by_cases hs : s.scroll_count = 30
    · have hgn : ¬loopGuard none s = true := by
        simp [loopGuard, hs]
      rw [runLoop_succ, if_neg hgn]
      exact hs
    · have hg : loopGuard none s = true := by
        simp only [loopGuard, mcTruthy, Bool.not_false, Bool.true_or, Bool.true_and,
          Bool.and_eq_true, decide_eq_true_eq]
        omega
      rw [runLoop_succ, if_pos hg]
      have hb : (stepIter none (env k) s).2 = false := by
        rw [stepIter_broke]; exact capReached_none _
      rw [if_neg (by simp [hb])]
      have hl : (stepIter none (env k) s).1.last_comment_count = (env k).length := by
        rw [stepIter_last, if_pos hlast]
      have hcs : (stepIter none (env k) s).1.consecutive_unchanged = 0 := by
        rw [stepIter_consec, if_pos hlast]
      have hsc : (stepIter none (env k) s).1.scroll_count = s.scroll_count + 1 := by
        rw [stepIter_scroll, hb]
        simp
      exact ih (k + 1) (stepIter none (env k) s).1
        (by rw [hl]; exact hmono k)
        (by rw [hcs]; omega)
        (by rw [hsc]; omega)
        (by rw [hsc]; omega)

/-- One iteration against a fully valid element list `L` with cap 25:
the collection grows to exactly `min (min L.length (collected + 10)) 25`,
the processing window of lines 130-141. -/
lemma stepIter_comments_valid (L : List CommentElement) (s : ScrapeState)
    (hv : ∀ e ∈ L, (_extract_comment e).isSome = true)
    (hcL : s.comments.length ≤ L.length) (hc25 : s.comments.length ≤ 25) :
    (stepIter (some 25) L s).1.comments.length =
      min (min L.length (s.comments.length + 10)) 25 := by
  have hwe : window_end (some 25) L.length s =
      min (min L.length (s.comments.length + 10)) 25 := by
    simp [window_end, mcTruthy]
  have hcE : s.comments.length ≤ min (min L.length (s.comments.length + 10)) 25 := by
    omega
  rw [stepIter_comments, hwe, window_start]
  rw [collectFrom_valid_length 25 _ _
    (fun e he => hv e (List.mem_of_mem_take (List.mem_of_mem_drop he)))
    (by simp only [List.length_drop, List.length_take]; omega)]
  simp only [List.length_drop, List.length_take]
  omega

/-- Main loop against a static, fully valid element list `L` with cap 25,
from any state of the stall phase (the recorded count already equals
`L.length`): the final collection length is `min L.length 25`.  The
invariant `min L.length 25 <= collected + 10 * (3 - stalls)` records that
the remaining stall budget suffices to finish the extraction. -/
lemma runLoop_cap25_valid (L : List CommentElement) (env : Nat → List CommentElement)
    (henv : ∀ j, env j = L)
    (hv : ∀ e ∈ L, (_extract_comment e).isSome = true) :
    ∀ (fuel k : Nat) (s : ScrapeState),
      s.last_comment_count = L.length →
      s.comments.length ≤ min L.length 25 →
      s.consecutive_unchanged ≤ 3 →
      min L.length 25 ≤ s.comments.length + 10 * (3 - s.consecutive_unchanged) →
      s.scroll_count + (3 - s.consecutive_unchanged) ≤ 30 →
      3 - s.consecutive_unchanged < fuel →
      (runLoop (some 25) env fuel k s).comments.length = min L.length 25 := by
  intro fuel
  induction fuel with
  | zero => intro k s _ _ _ _ _ hf; omega
  | succ f ih =>
    intro k s hlast hcle hc3 hinv hs30 hf
    by_cases hg : loopGuard (some 25) s = true
    · rw [runLoop_succ, if_pos hg, henv k]
      have hgp : s.comments.length < 25 ∧ s.scroll_count < 30 ∧
          s.consecutive_unchanged < 3 := by
        simp only [loopGuard, mcTruthy, Option.getD_some, Bool.and_eq_true, Bool.or_eq_true,
          Bool.not_eq_true', bne_eq_false_iff_eq, decide_eq_true_eq] at hg
        rcases hg.1.1 with h0 | h0
        · omega
        · exact ⟨h0, hg.1.2, hg.2⟩
      have hcomm : (stepIter (some 25) L s).1.comments.length =
          min (min L.length (s.comments.length + 10)) 25 :=
        stepIter_comments_valid L s hv (by omega) (by omega)
      have hnb : ¬s.last_comment_count < L.length := by omega
      have hbeq : (stepIter (some 25) L s).2 =
          capReached (some 25) (min (min L.length (s.comments.length + 10)) 25) := by
        rw [stepIter_broke, hcomm]
      by_cases hE : 25 ≤ min (min L.length (s.comments.length + 10)) 25
      · have hb2 : (stepIter (some 25) L s).2 = true := by
          rw [hbeq]
          simp only [capReached, mcTruthy, Option.getD_some, Bool.and_eq_true,
            decide_eq_true_eq, bne_iff_ne]
          exact ⟨by omega, hE⟩
        rw [if_pos hb2, hcomm]
        omega
      · have hb2 : (stepIter (some 25) L s).2 = false := by
          rw [hbeq]
          simp only [capReached, mcTruthy, Option.getD_some, Bool.and_eq_false_iff,
            decide_eq_false_iff_not, not_le]
          right
          omega
        rw [if_neg (by simp [hb2])]
        have hl2 : (stepIter (some 25) L s).1.last_comment_count = s.last_comment_count := by
          rw [stepIter_last, if_neg hnb]
        have hc2 : (stepIter (some 25) L s).1.consecutive_unchanged =
            s.consecutive_unchanged + 1 := by
          rw [stepIter_consec, if_neg hnb]
        have hs2 : (stepIter (some 25) L s).1.scroll_count = s.scroll_count + 1 := by
          rw [stepIter_scroll, hb2]
          simp
        exact ih (k + 1) (stepIter (some 25) L s).1
          (by rw [hl2, hlast])
          (by rw [hcomm]; omega)
          (by rw [hc2]; omega)
          (by rw [hcomm, hc2]; omega)
          (by rw [hs2, hc2]; omega)
          (by rw [hc2]; omega)
    · rw [runLoop_succ, if_neg hg]
      have hgp : ¬(s.comments.length < 25 ∧ s.scroll_count < 30 ∧
          s.consecutive_unchanged < 3) := by
        intro ⟨h1, h2, h3⟩
        apply hg
        simp only [loopGuard, mcTruthy, Option.getD_some, Bool.and_eq_true, Bool.or_eq_true,
          Bool.not_eq_true', bne_eq_false_iff_eq, decide_eq_true_eq]
        exact ⟨⟨Or.inr h1, h2⟩, h3⟩
      omega

/-- The whole collection loop on a static, fully valid DOM of
`L.length` elements, with cap 25: exactly `min L.length 25` records. -/
lemma scrapeLoop_cap25_valid (L : List CommentElement) (env : Nat → List CommentElement)
    (henv : ∀ j, env j = L)
    (hv : ∀ e ∈ L, (_extract_comment e).isSome = true) :
    (scrapeLoop (some 25) env).comments.length = min L.length 25 := by
  unfold scrapeLoop
  cases L with
  | nil =>
    exact runLoop_cap25_valid [] env henv hv 40 0 _ rfl (by decide) (by decide)
      (by decide) (by decide) (by decide)
  | cons e es =>
    rw [show (40 : Nat) = 39 + 1 from rfl, runLoop_succ, henv 0]
    have hg : loopGuard (some 25) initialState = true := by decide
    rw [if_pos hg]
    have hgt : initialState.last_comment_count < (e :: es).length := by simp [initialState]
    have hcomm : (stepIter (some 25) (e :: es) initialState).1.comments.length =
        min (min (e :: es).length 10) 25 := by
      have := stepIter_comments_valid (e :: es) initialState hv
        (by simp [initialState]) (by simp [initialState])
      simpa [initialState] using this
    have hb : (stepIter (some 25) (e :: es) initialState).2 = false := by
      rw [stepIter_broke, hcomm]
      simp only [capReached, mcTruthy, Option.getD_some, Bool.and_eq_false_iff,
        decide_eq_false_iff_not, not_le]
      right
      omega
    rw [if_neg (by simp [hb])]
    apply runLoop_cap25_valid (e :: es) env henv hv 39 1
    · rw [stepIter_last, if_pos hgt]
    · rw [hcomm]; omega
    · rw [stepIter_consec, if_pos hgt]; omega
    · rw [hcomm, stepIter_consec, if_pos hgt]; omega
    · rw [stepIter_scroll, hb, stepIter_consec, if_pos hgt]; simp [initialState]
    · rw [stepIter_consec, if_pos hgt]; omega

/- ### Small lemmas used by the claim theorems -/

/-- `_extract_comment` succeeds exactly when the author and text lookups
are both truthy. -/
lemma extract_comment_isSome (el : CommentElement) :
    (_extract_comment el).isSome =
      (_get_element_text el "#author-text" != "" &&
       _get_element_text el "#content-text" != "") := by
  simp only [_extract_comment]
  split
  · next h => simp [h]
  · next h => simp [eq_false_of_ne_true h]

/-- Truncation with a positive cap is `List.take`. -/
lemma truncateToCap_some25 (l : List CommentRecord) :
    truncateToCap (some 25) l = l.take 25 := rfl

/- ### Claim theorems -/

/-- C1 (corrected), counterexample: on a static DOM holding one invalid
element followed by one valid element, a run with `maxComments = 25`
collects 2 records even though the page only ever yields 1 valid record:
`start_index = len(comments)` (line 130) conflates the collected count
with the element index, so after the invalid element shifts the indices
the valid element is extracted a second time.  Hence the final length is
not `min(25, totalAvailable)`. -/
theorem cap25_exact_length_cex :
    (truncateToCap (some 25)
      (scrapeLoop (some 25) (fun _ => [sampleInvalid, sampleValid])).comments).length = 2 ∧
    (([sampleInvalid, sampleValid] : List CommentElement).filter
      (fun e => (_extract_comment e).isSome)).length = 1 ∧
    (2 : Nat) ≠ min 25 1 := by
  decide

/-- C1 (corrected): with `maxComments = 25` the returned comment sequence
never exceeds 25 records — the loop guard, the window bound of line 133,
the break of lines 140-141/148-150 and the final truncation of line 160
all enforce the cap — and when the DOM is static with every element
yielding a valid record, the final length is exactly
`min 25 totalAvailable`.  (Without the all-valid assumption the index
dedup can re-collect records, see the counterexample.) -/
theorem cap25_exact_length (L : List CommentElement) (env : Nat → List CommentElement)
    (hv : ∀ e ∈ L, (_extract_comment e).isSome = true) :
    (truncateToCap (some 25) (scrapeLoop (some 25) (fun _ => L)).comments).length
      = min 25 L.length ∧
    (scrapeLoop (some 25) env).comments.length ≤ 25 := by
  constructor
  · have hlen := scrapeLoop_cap25_valid L (fun _ => L) (fun _ => rfl) hv
    rw [truncateToCap_some25, List.length_take, hlen]
    omega
  · exact runLoop_le_cap 25 env (by omega) 40 0 initialState (by decide)

/-- C1 witness: a static DOM of one valid element with cap 25 collects
exactly `min 25 1 = 1` record. -/
theorem cap25_exact_length_wit :
    (truncateToCap (some 25) (scrapeLoop (some 25) (fun _ => [sampleValid])).comments).length
      = min 25 ([sampleValid] : List CommentElement).length ∧
    (scrapeLoop (some 25) (fun _ => [sampleValid])).comments.length ≤ 25 :=
  cap25_exact_length [sampleValid] (fun _ => [sampleValid]) (by decide)

/-- C2 (corrected), counterexample: with a cap of 1 and a static DOM of
one valid element — so the element count never increases across
iterations — the loop stops by the cap break of lines 148-150 during its
first iteration, with `consecutive_unchanged = 0`, not 3.  The claim
fails as stated because a set cap can preempt the stall exit. -/
theorem stall_exit_cex :
    (scrapeLoop (some 1) (fun _ => [sampleValid])).consecutive_unchanged = 0 ∧
    (scrapeLoop (some 1) (fun _ => [sampleValid])).scroll_count = 0 ∧
    (0 : Nat) ≠ 3 := by
  decide

/-- C2 (corrected): when no cap is set and the element count returned by
the DOM query never increases from one iteration to the next, the loop
stops with `consecutive_unchanged = 3` after exactly 3 no-growth
iterations: 3 iterations in total when the first query finds no elements,
4 when it finds some (the first comparison is against the initial
`last_comment_count = 0` and registers as growth). -/
theorem stall_exit (env : Nat → List CommentElement)
    (hmono : ∀ j, (env (j + 1)).length ≤ (env j).length) :
    (scrapeLoop none env).consecutive_unchanged = 3 ∧
    (scrapeLoop none env).scroll_count = if 0 < (env 0).length then 4 else 3 := by
  unfold scrapeLoop
  by_cases h0 : 0 < (env 0).length
  · rw [if_pos h0, show (40 : Nat) = 39 + 1 from rfl, runLoop_succ]
    have hg : loopGuard none initialState = true := by decide
    rw [if_pos hg]
    have hb : (stepIter none (env 0) initialState).2 = false := by
      rw [stepIter_broke]; exact capReached_none _
    rw [if_neg (by simp [hb])]
    have hgt : initialState.last_comment_count < (env 0).length := h0
    have hl : (stepIter none (env 0) initialState).1.last_comment_count = (env 0).length := by
      rw [stepIter_last, if_pos hgt]
    have hcs : (stepIter none (env 0) initialState).1.consecutive_unchanged = 0 := by
      rw [stepIter_consec, if_pos hgt]
    have hsc : (stepIter none (env 0) initialState).1.scroll_count = 1 := by
      rw [stepIter_scroll, hb]
      decide
    obtain ⟨h1, h2⟩ := runLoop_stall env hmono 39 1 (stepIter none (env 0) initialState).1
      (by rw [hl]; exact hmono 0)
      (by rw [hcs]; omega)
      (by rw [hsc, hcs]; omega)
      (by rw [hcs]; omega)
    refine ⟨h1, ?_⟩
    rw [h2, hsc, hcs]
  · rw [if_neg h0]
    obtain ⟨h1, h2⟩ := runLoop_stall env hmono 40 0 initialState
      (by show (env 0).length ≤ 0; omega)
      (by decide) (by decide) (by decide)
    exact ⟨h1, by rw [h2]; decide⟩

/-- C2 witness: a DOM query that always returns no elements stalls out in
exactly 3 iterations. -/
theorem stall_exit_wit :
    (scrapeLoop none (fun _ => ([] : List CommentElement))).consecutive_unchanged = 3 ∧
    (scrapeLoop none (fun _ => ([] : List CommentElement))).scroll_count = 3 := by
  have h := stall_exit (fun _ => ([] : List CommentElement)) (fun _ => le_rfl)
  simpa using h

/-- C3 (confirmed): with no cap set and a DOM query that returns strictly
more elements on every cycle, the growth branch of lines 122-125 resets
the stall counter each iteration, so the loop runs until the hard ceiling
`scroll_count < 30` of line 117 fails: it stops after exactly 30 scroll
iterations. -/
theorem scroll_ceiling (env : Nat → List CommentElement)
    (hmono : ∀ j, (env j).length < (env (j + 1)).length) :
    (scrapeLoop none env).scroll_count = 30 := by
  unfold scrapeLoop
  by_cases h0 : 0 < (env 0).length
  · exact runLoop_grow env hmono 40 0 initialState h0 (by decide) (by decide) (by decide)
  · rw [show (40 : Nat) = 39 + 1 from rfl, runLoop_succ]
    have hg : loopGuard none initialState = true := by decide
    rw [if_pos hg]
    have hb : (stepIter none (env 0) initialState).2 = false := by
      rw [stepIter_broke]; exact capReached_none _
    rw [if_neg (by simp [hb])]
    have hnb : ¬initialState.last_comment_count < (env 0).length := by
      show ¬(0 : Nat) < (env 0).length
      omega
    have hsc : (stepIter none (env 0) initialState).1.scroll_count = 1 := by
      rw [stepIter_scroll, hb]
      decide
    apply runLoop_grow env hmono 39 1
    · rw [stepIter_last, if_neg hnb]
      exact lt_of_le_of_lt (Nat.zero_le (env 0).length) (hmono 0)
    · rw [stepIter_consec, if_neg hnb]
      show (0 : Nat) + 1 < 3
      omega
    · rw [hsc]; omega
    · rw [hsc]; omega

/-- C3 witness: a DOM growing by one (invalid) element per cycle with no
cap runs exactly 30 scroll iterations. -/
theorem scroll_ceiling_wit :
    (scrapeLoop none (fun k => List.replicate (k + 1) sampleInvalid)).scroll_count = 30 :=
  scroll_ceiling (fun k => List.replicate (k + 1) sampleInvalid)
    (fun j => by simp)

/-- C4 (confirmed): in every iteration the extraction window starts at
`window_start = len(comments)` and ends at
`window_end = min(len(elements), len(comments) + 10, cap-or-infinity)`
(lines 130-133), so its width is at most 10 and one iteration grows the
collection by at most 10 records, however many new elements appeared. -/
theorem window_at_most_ten (mc : Option Nat) (elems : List CommentElement) (s : ScrapeState) :
    window_end mc elems.length s ≤ window_start s + 10 ∧
    ((elems.take (window_end mc elems.length s)).drop (window_start s)).length ≤ 10 ∧
    (stepIter mc elems s).1.comments.length ≤ s.comments.length + 10 := by
  have h1 : window_end mc elems.length s ≤ window_start s + 10 := by
    simp only [window_end, window_start]
    split <;> omega
  have h2 : ((elems.take (window_end mc elems.length s)).drop (window_start s)).length ≤ 10 := by
    simp only [List.length_drop, List.length_take, window_start] at h1 ⊢
    omega
  refine ⟨h1, h2, ?_⟩
  rw [stepIter_comments]
  have h3 := collectFrom_length_le mc
    ((elems.take (window_end mc elems.length s)).drop (window_start s)) s.comments
  omega

/-- C5 (confirmed): every one of the four URL shapes carrying the valid
11-character id `abcEFG01234` — short link, watch link with query
parameter `v`, shorts and embed paths, and the bare id — resolves to
`abcEFG01234`, and a string matching none of the shapes resolves to
`none`. -/
theorem extract_video_id_shapes :
    extract_video_id "https://youtu.be/abcEFG01234" = some "abcEFG01234" ∧
    extract_video_id "https://www.youtube.com/watch?v=abcEFG01234" = some "abcEFG01234" ∧
    extract_video_id "https://www.youtube.com/shorts/abcEFG01234" = some "abcEFG01234" ∧
    extract_video_id "https://www.youtube.com/embed/abcEFG01234" = some "abcEFG01234" ∧
    extract_video_id "abcEFG01234" = some "abcEFG01234" ∧
    extract_video_id "https://example.com/page" = none := by
  decide

/-- C6 (corrected), counterexample: the short-link branch returns whatever
follows the last slash without any pattern check, so
`extract_video_id "https://youtu.be/x"` returns `"x"`, which is not an
11-character identifier. -/
theorem id_pattern_cex :
    extract_video_id "https://youtu.be/x" = some "x" ∧
    matchesIdPattern "x" = false ∧ ("x" : String).length ≠ 11 := by
  decide

/-- C6 (corrected): only the bare-id branch checks the identifier
pattern: when the input contains none of the three URL markers, a
non-`none` result is the input itself and satisfies the 11-character
pattern (up to the trailing-newline allowance of the regex `$` anchor);
results of the URL branches are unchecked substrings. -/
theorem id_pattern_guard (url v : String)
    (h1 : pyContains url "youtu.be" = false)
    (h2 : pyContains url "youtube.com/watch" = false)
    (h3 : pyContains url "youtube.com/shorts" = false)
    (h4 : pyContains url "youtube.com/embed" = false)
    (h5 : extract_video_id url = some v) :
    v = url ∧ matchesIdPattern v = true := by
  simp only [extract_video_id, h1, h2, h3, h4, Bool.or_self, Bool.false_eq_true,
    if_false] at h5
  by_cases hm : matchesIdPattern url = true
  · rw [if_pos hm] at h5
    injection h5 with h5
    exact ⟨h5.symm, h5 ▸ hm⟩
  · rw [if_neg hm] at h5
    exact absurd h5 (by simp)

/-- C6 witness: the bare id `abcEFG01234` contains no URL marker and is
returned unchanged, matching the pattern. -/
theorem id_pattern_guard_wit :
    ("abcEFG01234" : String) = "abcEFG01234" ∧ matchesIdPattern "abcEFG01234" = true :=
  id_pattern_guard "abcEFG01234" "abcEFG01234" (by decide) (by decide) (by decide)
    (by decide) (by decide)

/-- C7 (corrected), counterexample: `_get_text` returns the element text
as-is (line 90 has no `.strip()`), so for an element whose visible text is
`" hi "` it returns `" hi "` and not the trimmed `"hi"`. -/
theorem get_text_cex :
    _get_text [{ selectors := ["#content-text"], text := " hi " }] "#content-text" "d"
      = " hi " ∧
    pyStrip " hi " = "hi" ∧ (" hi " : String) ≠ "hi" := by
  decide

/-- C7 (corrected): both helpers return a value derived from the first
element matching the selector in their scope, or the default when none
matches (`""` for `_get_element_text`); `_get_element_text` trims the
text, while `_get_text` returns it untrimmed. -/
theorem get_text_contract (page parent : List DomNode) (selector default : String) :
    _get_text page selector default =
      ((find_elements page selector).head?.map DomNode.text).getD default ∧
    _get_element_text parent selector =
      ((find_elements parent selector).head?.map (fun e => pyStrip e.text)).getD "" := by
  constructor
  · cases h : find_elements page selector <;> simp [_get_text, h]
  · cases h : find_elements parent selector <;> simp [_get_element_text, h]

/-- C8 (confirmed): `_extract_comment` materializes a record exactly when
both the extracted author and the extracted text are non-empty (line 196),
and an element yielding no record leaves the collection unchanged in the
inner loop, so the collected count does not grow for it. -/
theorem extract_comment_validity (el : CommentElement) (mc : Option Nat)
    (rest : List CommentElement) (cs : List CommentRecord) :
    ((_extract_comment el).isSome = true ↔
      (_get_element_text el "#author-text" ≠ "" ∧
       _get_element_text el "#content-text" ≠ "")) ∧
    (_extract_comment el = none → collectFrom mc (el :: rest) cs = collectFrom mc rest cs) := by
  constructor
  · rw [extract_comment_isSome]
    simp [Bool.and_eq_true, bne_iff_ne]
  · intro h
    simp [collectFrom, h]

/-- C8 witness: the invalid sample element yields no record and leaves
the inner loop result unchanged. -/
theorem extract_comment_validity_wit :
    collectFrom none [sampleInvalid] [] = collectFrom none [] [] :=
  (extract_comment_validity sampleInvalid none [] []).2 (by decide)

/-- C9 (corrected), counterexample: for the URL `https://youtu.be/` the
short-link branch returns the empty string — a ContentIdentifier result,
not the not-found signal `None` — yet the guard `if not video_id:` of
line 55 fires on the falsy empty string, so the scrape aborts with `None`
all the same.  Hence an identifier-resolution result of `None` is not the
only condition that short-circuits the scrape. -/
theorem abort_only_on_bad_id_cex :
    extract_video_id "https://youtu.be/" = some "" ∧
    scrape_comments "https://youtu.be/" [] (fun _ => []) none "top" "2024-01-01" = none ∧
    (some "" : Option String) ≠ none := by
  decide

/-- C9 (corrected): `scrape_comments` returns `None` exactly when the
extracted video id is falsy — `None` or the empty string, both rejected
by the `if not video_id:` guard of line 55 and reported as an invalid URL
(lines 54-57 and 95-97) — no other condition short-circuits the scrape,
and in either abort case `main` writes no output file (the `if data:`
guard of line 257). -/
theorem abort_only_on_bad_id (video_url : String) (page : List DomNode)
    (env : Nat → List CommentElement) (mc : Option Nat)
    (sort_by scrape_date output_format base_filename : String) :
    (scrape_comments video_url page env mc sort_by scrape_date = none ↔
      (extract_video_id video_url = none ∨ extract_video_id video_url = some "")) ∧
    (extract_video_id video_url = none ∨ extract_video_id video_url = some "" →
      outputFiles (scrape_comments video_url page env mc sort_by scrape_date)
        output_format base_filename = []) := by
  cases h : extract_video_id video_url with
  | none => simp [scrape_comments, get_video_info, h, outputFiles]
  | some v =>
    by_cases hv : v = ""
    · subst hv
      simp [scrape_comments, get_video_info, h, outputFiles]
    · simp [scrape_comments, get_video_info, h, hv]

/-- C9 witness: an unparseable URL yields no result and no output
files. -/
theorem abort_only_on_bad_id_wit :
    outputFiles (scrape_comments "not a url" [] (fun _ => []) none "top" "2024-01-01")
      "json" "out" = [] :=
  (abort_only_on_bad_id "not a url" [] (fun _ => []) none "top" "2024-01-01"
    "json" "out").2 (Or.inl (by decide))

/-- C10 (confirmed): every materialized record has all four fields
non-empty: author and text by the validity guard of line 196, and likes
and timestamp by the `or`-sentinels of lines 192-193, which substitute
`"0"` for a missing or empty like count and `"Unknown"` for a missing or
empty timestamp. -/
theorem record_fields_nonempty (el : CommentElement) (r : CommentRecord)
    (h : _extract_comment el = some r) :
    r.author ≠ "" ∧ r.text ≠ "" ∧ r.likes ≠ "" ∧ r.timestamp ≠ "" ∧
    (_get_element_text el "#vote-count-middle" = "" → r.likes = "0") ∧
    (_get_element_text el ".published-time-text" = "" → r.timestamp = "Unknown") := by
  simp only [_extract_comment] at h
  split at h
  · next hc =>
    simp only [Bool.and_eq_true, bne_iff_ne] at hc
    injection h with h
    subst h
    refine ⟨hc.1, hc.2, ?_, ?_, ?_, ?_⟩
    · show pyOrStr (_get_element_text el "#vote-count-middle") "0" ≠ ""
      simp only [pyOrStr]
      split
      · decide
      · next hx => exact hx
    · show pyOrStr (_get_element_text el ".published-time-text") "Unknown" ≠ ""
      simp only [pyOrStr]
      split
      · decide
      · next hx => exact hx
    · intro hl
      show pyOrStr (_get_element_text el "#vote-count-middle") "0" = "0"
      simp [pyOrStr, hl]
    · intro ht
      show pyOrStr (_get_element_text el ".published-time-text") "Unknown" = "Unknown"
      simp [pyOrStr, ht]
  · exact absurd h (by simp)

/-- C10 witness: the valid sample element has no like-count and no
timestamp node, and its record carries the sentinels. -/
theorem record_fields_nonempty_wit :
    ({ author := "a", text := "b", likes := "0", timestamp := "Unknown" }
        : CommentRecord).author ≠ "" ∧
    ({ author := "a", text := "b", likes := "0", timestamp := "Unknown" }
        : CommentRecord).text ≠ "" ∧
    ({ author := "a", text := "b", likes := "0", timestamp := "Unknown" }
        : CommentRecord).likes ≠ "" ∧
    ({ author := "a", text := "b", likes := "0", timestamp := "Unknown" }
        : CommentRecord).timestamp ≠ "" ∧
    (_get_element_text sampleValid "#vote-count-middle" = "" →
      ({ author := "a", text := "b", likes := "0", timestamp := "Unknown" }
        : CommentRecord).likes = "0") ∧
    (_get_element_text sampleValid ".published-time-text" = "" →
      ({ author := "a", text := "b", likes := "0", timestamp := "Unknown" }
        : CommentRecord).timestamp = "Unknown") :=
  record_fields_nonempty sampleValid
    { author := "a", text := "b", likes := "0", timestamp := "Unknown" } (by decide)
